import Mathlib

/-!
Shallow embedding of the moderation decision pipeline of
`src/bot/moderator/ai_analyzer.py` (the `ContentModerator` class and the
module-level `analyze_message` wrapper), together with models of the
Python library functions the pipeline calls (`str.strip`, `str.find`,
`str.rfind`, `str.upper`, `str.lower`, `float(...)`, `json.loads`,
`dict.get`).  Python float values are modelled by `PyFloat`: a finite
rational, or NaN or an infinity — the non-finite values `json.loads`
and `float()` accept and which the pipeline's `min`/`max` clamp must
handle; on the finite decimal values that occur here the rationals and
the machine doubles of the source behave identically.  Effectful steps
(the LLM round trip, the event-loop clock, `datetime.now()`) are passed
in explicitly as environment data.
-/

/-- The opening brace character (written via its code point). -/
def lbrace : Char := Char.ofNat 123

/-- The closing brace character (written via its code point). -/
def rbrace : Char := Char.ofNat 125

/-- A CPython float value as it can occur in this pipeline: a finite
value (exact on the decimal literals involved here), NaN, or one of the
two infinities.  `json.loads` accepts the `NaN`/`Infinity`/`-Infinity`
constants by default and `float()` coerces `nan`/`inf`/`infinity`
strings, so all four shapes are reachable. -/
inductive PyFloat where
  | finite (q : ℚ) : PyFloat
  | nan : PyFloat
  | inf : PyFloat
  | ninf : PyFloat
  deriving DecidableEq

/-- Python's `<` on float values: every comparison involving NaN is
false; the infinities compare as usual. -/
def pyLt : PyFloat → PyFloat → Bool
  | .finite a, .finite b => decide (a < b)
  | .finite _, .inf => true
  | .ninf, .finite _ => true
  | .ninf, .inf => true
  | _, _ => false

/-- Python's builtin `max(a, b)`: starts from `a` and replaces it by `b`
only when `b > a` — so a NaN first argument is returned unchanged. -/
def pyMax (a b : PyFloat) : PyFloat := if pyLt a b then b else a

/-- Python's builtin `min(a, b)`: starts from `a` and replaces it by `b`
only when `b < a` — so a NaN first argument is returned unchanged. -/
def pyMin (a b : PyFloat) : PyFloat := if pyLt b a then b else a

/-- The value is a finite number lying in the closed interval `[0, 1]`
(NaN and the infinities never are). -/
def PyFloat.inUnitInterval : PyFloat → Prop
  | .finite q => 0 ≤ q ∧ q ≤ 1
  | _ => False

/-- Values produced by Python `json.loads`: null, booleans, numbers,
strings, arrays and objects.  An object keeps its key/value pairs in
source order; Python dicts retain the last binding of a duplicated key,
which `lookupLast` below reproduces. -/
inductive JsonValue where
  | jnull : JsonValue
  | jbool (b : Bool) : JsonValue
  | jnum (x : PyFloat) : JsonValue
  | jstr (s : String) : JsonValue
  | jarr (elems : List JsonValue) : JsonValue
  | jobj (fields : List (String × JsonValue)) : JsonValue

/-- The characters stripped by Python `str.strip()` (ASCII whitespace,
including vertical tab and form feed) and skipped by `float(str)`. -/
def pyIsSpace (c : Char) : Bool :=
  c = ' ' || c = '\t' || c = '\n' || c = '\r' || c = Char.ofNat 11 || c = Char.ofNat 12

/-- The inter-token whitespace of Python's json scanner: space, tab,
newline and carriage return only. -/
def isJsonWs (c : Char) : Bool :=
  c = ' ' || c = '\t' || c = '\n' || c = '\r'

/-- Drop leading json whitespace. -/
def skipWs : List Char → List Char
  | [] => []
  | c :: rest => if isJsonWs c then skipWs rest else c :: rest

/-- Longest leading run of decimal digits, with the remainder. -/
def takeDigits : List Char → List Char × List Char
  | [] => ([], [])
  | c :: rest =>
    if c.isDigit then
      let (ds, r) := takeDigits rest
      (c :: ds, r)
    else ([], c :: rest)

/-- Numeric value of a digit string (most significant digit first). -/
def digitsVal (ds : List Char) : ℕ :=
  ds.foldl (fun acc c => 10 * acc + (c.toNat - 48)) 0

/-- Optional fraction part `.ddd` of a JSON number; Python's scanner
regex only consumes it when at least one digit follows the dot. -/
def parseJsonFrac (s : List Char) : ℚ × List Char :=
  match s with
  | '.' :: rest =>
    let (ds, r) := takeDigits rest
    if ds.isEmpty then (0, s)
    else ((digitsVal ds : ℚ) / (10 : ℚ) ^ ds.length, r)
  | _ => (0, s)

/-- Optional exponent part of a JSON number; only consumed when at least
one digit follows the marker, as in Python json's NUMBER_RE. -/
def parseJsonExp (s : List Char) : ℤ × List Char :=
  match s with
  | [] => (0, [])
  | c :: rest =>
    if c = 'e' || c = 'E' then
      match rest with
      | '-' :: r2 =>
        let (ds, r) := takeDigits r2
        if ds.isEmpty then (0, s) else (-(digitsVal ds : ℤ), r)
      | '+' :: r2 =>
        let (ds, r) := takeDigits r2
        if ds.isEmpty then (0, s) else ((digitsVal ds : ℤ), r)
      | r2 =>
        let (ds, r) := takeDigits r2
        if ds.isEmpty then (0, s) else ((digitsVal ds : ℤ), r)
    else (0, s)

/-- A JSON number per Python json's scanner regex
`-?(0|[1-9][0-9]*)([.][0-9]+)?([eE][+-]?[0-9]+)?`. -/
def parseJsonNumber (s : List Char) : Option (ℚ × List Char) :=
  let (neg, s1) : Bool × List Char :=
    match s with
    | '-' :: r => (true, r)
    | _ => (false, s)
  let finish : ℕ → List Char → Option (ℚ × List Char) := fun ip r =>
    let (frac, r1) := parseJsonFrac r
    let (ex, r2) := parseJsonExp r1
    let mag : ℚ := ((ip : ℚ) + frac) * (10 : ℚ) ^ ex
    some (if neg then -mag else mag, r2)
  match s1 with
  | [] => none
  | c :: rest =>
    if c = '0' then finish 0 rest
    else if c.isDigit then
      let (ds, r) := takeDigits rest
      finish (digitsVal (c :: ds)) r
    else none

/-- Value of a hexadecimal digit. -/
def hexVal (c : Char) : Option ℕ :=
  if c.isDigit then some (c.toNat - 48)
  else if 'a' ≤ c && c ≤ 'f' then some (c.toNat - 87)
  else if 'A' ≤ c && c ≤ 'F' then some (c.toNat - 55)
  else none

/-- Body of a JSON string after the opening quote, strict mode: escape
sequences are decoded, unescaped control characters are rejected.  A
`u`-escape is decoded as a single code point (surrogate pairs are not
combined; no claim involves them). -/
def parseJsonStringBody : ℕ → List Char → List Char → Option (String × List Char)
  | 0, _, _ => none
  | Nat.succ fuel, acc, s =>
    match s with
    | [] => none
    | c :: rest =>
      if c = '"' then some (String.mk acc.reverse, rest)
      else if c = '\\' then
        match rest with
        | [] => none
        | e :: r2 =>
          if e = '"' then parseJsonStringBody fuel ('"' :: acc) r2
          else if e = '\\' then parseJsonStringBody fuel ('\\' :: acc) r2
          else if e = '/' then parseJsonStringBody fuel ('/' :: acc) r2
          else if e = 'b' then parseJsonStringBody fuel (Char.ofNat 8 :: acc) r2
          else if e = 'f' then parseJsonStringBody fuel (Char.ofNat 12 :: acc) r2
          else if e = 'n' then parseJsonStringBody fuel ('\n' :: acc) r2
          else if e = 'r' then parseJsonStringBody fuel ('\r' :: acc) r2
          else if e = 't' then parseJsonStringBody fuel ('\t' :: acc) r2
          else if e = 'u' then
            match r2 with
            | h1 :: h2 :: h3 :: h4 :: r3 =>
              match hexVal h1, hexVal h2, hexVal h3, hexVal h4 with
              | some a, some b, some c3, some d =>
                parseJsonStringBody fuel
                  (Char.ofNat (((a * 16 + b) * 16 + c3) * 16 + d) :: acc) r3
              | _, _, _, _ => none
            | _ => none
          else none
      else if c.toNat < 32 then none
      else parseJsonStringBody fuel (c :: acc) rest

mutual

/-- One JSON value (model of Python json's recursive scanner, including
the `NaN`/`Infinity`/`-Infinity` constants it accepts by default). -/
def parseJsonValue : ℕ → List Char → Option (JsonValue × List Char)
  | 0, _ => none
  | Nat.succ fuel, s =>
    match skipWs s with
    | [] => none
    | c :: rest =>
      if c = lbrace then
        match skipWs rest with
        | [] => none
        | c2 :: r2 =>
          if c2 = rbrace then some (.jobj [], r2)
          else parseJsonMembers fuel [] (c2 :: r2)
      else if c = '[' then
        match skipWs rest with
        | [] => none
        | c2 :: r2 =>
          if c2 = ']' then some (.jarr [], r2)
          else parseJsonElements fuel [] (c2 :: r2)
      else if c = '"' then
        match parseJsonStringBody (rest.length + 1) [] rest with
        | some (str, r) => some (.jstr str, r)
        | none => none
      else if c = 't' then
        match rest with
        | 'r' :: 'u' :: 'e' :: r => some (.jbool true, r)
        | _ => none
      else if c = 'f' then
        match rest with
        | 'a' :: 'l' :: 's' :: 'e' :: r => some (.jbool false, r)
        | _ => none
      else if c = 'n' then
        match rest with
        | 'u' :: 'l' :: 'l' :: r => some (.jnull, r)
        | _ => none
      else if c = 'N' then
        match rest with
        | 'a' :: 'N' :: r => some (.jnum .nan, r)
        | _ => none
      else if c = 'I' then
        match rest with
        | 'n' :: 'f' :: 'i' :: 'n' :: 'i' :: 't' :: 'y' :: r => some (.jnum .inf, r)
        | _ => none
      else if c = '-' then
        match rest with
        | 'I' :: 'n' :: 'f' :: 'i' :: 'n' :: 'i' :: 't' :: 'y' :: r =>
          some (.jnum .ninf, r)
        | _ =>
          match parseJsonNumber (c :: rest) with
          | some (q, r) => some (.jnum (.finite q), r)
          | none => none
      else
        match parseJsonNumber (c :: rest) with
        | some (q, r) => some (.jnum (.finite q), r)
        | none => none

/-- Members of a JSON object after the opening brace, when the object is
not empty. -/
def parseJsonMembers : ℕ → List (String × JsonValue) → List Char →
    Option (JsonValue × List Char)
  | 0, _, _ => none
  | Nat.succ fuel, acc, s =>
    match skipWs s with
    | [] => none
    | c :: rest =>
      if c = '"' then
        match parseJsonStringBody (rest.length + 1) [] rest with
        | none => none
        | some (key, r1) =>
          match skipWs r1 with
          | ':' :: r2 =>
            match parseJsonValue fuel r2 with
            | none => none
            | some (v, r3) =>
              match skipWs r3 with
              | [] => none
              | c5 :: r5 =>
                if c5 = ',' then parseJsonMembers fuel (acc ++ [(key, v)]) r5
                else if c5 = rbrace then some (.jobj (acc ++ [(key, v)]), r5)
                else none
          | _ => none
      else none

/-- Elements of a JSON array after the opening bracket, when the array
is not empty. -/
def parseJsonElements : ℕ → List JsonValue → List Char →
    Option (JsonValue × List Char)
  | 0, _, _ => none
  | Nat.succ fuel, acc, s =>
    match parseJsonValue fuel s with
    | none => none
    | some (v, r1) =>
      match skipWs r1 with
      | [] => none
      | c :: r2 =>
        if c = ',' then parseJsonElements fuel (acc ++ [v]) r2
        else if c = ']' then some (.jarr (acc ++ [v]), r2)
        else none

end

/-- Model of Python `json.loads`: parse one value and require only
whitespace to remain (otherwise json raises an Extra-data error). -/
def jsonLoads (s : List Char) : Option JsonValue :=
  match parseJsonValue (s.length + 1) s with
  | some (v, rest) => if (skipWs rest).isEmpty then some v else none
  | none => none

/-- Model of Python `str.strip()` (ASCII whitespace). -/
def pyStrip (s : List Char) : List Char :=
  ((s.dropWhile fun c => pyIsSpace c).reverse.dropWhile fun c => pyIsSpace c).reverse

/-- Model of Python `str.find(c)`: index of the first occurrence, if
any (`-1` in the source is `none` here). -/
def pyFind (c : Char) (s : List Char) : Option ℕ :=
  s.findIdx? (fun x => x = c)

/-- Model of Python `str.rfind(c)`: index of the last occurrence, if
any. -/
def pyRfind (c : Char) (s : List Char) : Option ℕ :=
  match s.reverse.findIdx? (fun x => x = c) with
  | some i => some (s.length - 1 - i)
  | none => none

/-- ASCII uppercase mapping of one character. -/
def asciiUpperChar (c : Char) : Char :=
  if 'a' ≤ c && c ≤ 'z' then Char.ofNat (c.toNat - 32) else c

/-- ASCII lowercase mapping of one character. -/
def asciiLowerChar (c : Char) : Char :=
  if 'A' ≤ c && c ≤ 'Z' then Char.ofNat (c.toNat + 32) else c

/-- Model of Python `str.upper` (ASCII case mapping). -/
def pyUpper (s : String) : String := String.mk (s.toList.map asciiUpperChar)

/-- Model of Python `str.lower` (ASCII case mapping). -/
def pyLower (s : String) : String := String.mk (s.toList.map asciiLowerChar)

/-- Longest leading digit run in Python float-literal syntax, where a
single underscore may stand between two digits (PEP 515: no leading,
trailing or doubled underscores); the returned digits have the
underscores removed. -/
def takeDigitsUAux : ℕ → List Char → List Char × List Char
  | 0, s => ([], s)
  | _, [] => ([], [])
  | Nat.succ fuel, c :: '_' :: d :: r2 =>
    if c.isDigit then
      if d.isDigit then
        let (ds, r) := takeDigitsUAux fuel (d :: r2)
        (c :: ds, r)
      else ([c], '_' :: d :: r2)
    else ([], c :: '_' :: d :: r2)
  | Nat.succ fuel, c :: rest =>
    if c.isDigit then
      let (ds, r) := takeDigitsUAux fuel rest
      (c :: ds, r)
    else ([], c :: rest)

/-- Entry point of the underscored-digit scanner; the fuel exceeds the
input length, so it never runs out. -/
def takeDigitsU (s : List Char) : List Char × List Char :=
  takeDigitsUAux (s.length + 1) s

/-- Model of Python `float(str)`: optional surrounding whitespace, an
optional sign, then either one of the case-insensitive constants
`nan`/`inf`/`infinity`, or digits (single underscores allowed between
digits) with an optional dot — at least one digit overall — and an
optional exponent; `none` models the ValueError on anything else. -/
def pyFloatOfString (s0 : List Char) : Option PyFloat :=
  let s := pyStrip s0
  let (neg, s1) : Bool × List Char :=
    match s with
    | '-' :: r => (true, r)
    | '+' :: r => (false, r)
    | _ => (false, s)
  let low := s1.map asciiLowerChar
  if low = ['n', 'a', 'n'] then some .nan
  else if low = ['i', 'n', 'f'] || low = ['i', 'n', 'f', 'i', 'n', 'i', 't', 'y'] then
    some (if neg then .ninf else .inf)
  else
    let sgn : ℚ := if neg then -1 else 1
    let (ip, s2) := takeDigitsU s1
    let (fp, s3) : List Char × List Char :=
      match s2 with
      | '.' :: r => takeDigitsU r
      | _ => ([], s2)
    let mantVal : ℚ := (digitsVal ip : ℚ) + (digitsVal fp : ℚ) / (10 : ℚ) ^ fp.length
    match s3 with
    | [] =>
      if ip.isEmpty && fp.isEmpty then none else some (.finite (sgn * mantVal))
    | c :: r =>
      if (c = 'e' || c = 'E') && !(ip.isEmpty && fp.isEmpty) then
        let (esgn, r1) : ℤ × List Char :=
          match r with
          | '-' :: rr => (-1, rr)
          | '+' :: rr => (1, rr)
          | _ => (1, r)
        let (eds, r2) := takeDigitsU r1
        if eds.isEmpty || !r2.isEmpty then none
        else some (.finite (sgn * mantVal * (10 : ℚ) ^ (esgn * (digitsVal eds : ℤ))))
      else none

/-- Model of Python `float(x)` applied to a json-decoded value: numbers
pass through, booleans coerce (`float(True)` is `1.0`), strings are
parsed by the `float(str)` grammar; everything else raises
(TypeError/ValueError), which is `none`. -/
def pyFloat : JsonValue → Option PyFloat
  | .jnum x => some x
  | .jbool b => some (.finite (if b then 1 else 0))
  | .jstr s => pyFloatOfString s.toList
  | _ => none

/-- Model of `dict.get` on a dict built by `json.loads`: the last
binding of a duplicated key wins. -/
def lookupLast (fields : List (String × JsonValue)) (k : String) : Option JsonValue :=
  match fields.reverse.find? (fun p => p.1 == k) with
  | some p => some p.2
  | none => none

/-- The five possible outcomes of analysis (the `ModerationAction`
enum, whose values are the lowercase label strings). -/
inductive ModerationAction where
  | approve | warn | delete | ban | timeout
  deriving DecidableEq

/-- The enum lookup `ModerationAction(value)` on the enum's string
values; `none` models the ValueError raised for an unknown value. -/
def moderationActionOfValue : String → Option ModerationAction
  | "approve" => some .approve
  | "warn" => some .warn
  | "delete" => some .delete
  | "ban" => some .ban
  | "timeout" => some .timeout
  | _ => none

/-- The result of one analysis (the `ModerationResult` dataclass).  The
`reason` field holds whatever json value Python would store there (the
dataclass does not enforce its `str` annotation); `timestamp` abstracts
`datetime.now()`; clock readings are rationals (seconds). -/
structure ModerationResult where
  action : ModerationAction
  reason : JsonValue
  confidence : PyFloat
  message_analyzed : String
  timestamp : ℕ
  processing_time : ℚ

/-- The exception raised inside the try-block of
`_parse_moderation_response`, by site: the explicit
no-JSON-found ValueError, a json.JSONDecodeError from `json.loads`, the
AttributeError from calling `.upper()` on a non-string `action` value,
and the TypeError/ValueError from `float(...)` on a non-coercible
`confidence` value. -/
inductive ParseError where
  | noJson | jsonDecode | actionNotString | confidenceNotCoercible
  deriving DecidableEq

/-- The `str(e)` text of each exception.  The no-JSON message is literal
in the source; the other three stand for the respective Python library
messages, whose exact wording no claim depends on. -/
def errMsg : ParseError → String
  | .noJson => "No se encontró JSON válido en la respuesta"
  | .jsonDecode => "Expecting value"
  | .actionNotString => "object has no attribute"
  | .confidenceNotCoercible => "could not convert value to float"

/-- The configuration fields of `Settings` that the moderator reads. -/
structure Settings where
  ai_model : String
  google_api_key : String
  ai_temperature : ℚ
  ai_max_tokens : ℕ
  moderation_enabled : Bool
  log_level : String

/-- The `ChatGoogleGenerativeAI` handle as configured by
`ContentModerator.initialize`. -/
structure LLMConfig where
  model : String
  google_api_key : String
  temperature : ℚ
  max_output_tokens : ℕ
  max_retries : ℕ
  timeout : ℕ

/-- A `ChatPromptTemplate.from_messages` value: the system prompt and
the human template containing the `message` placeholder. -/
structure PromptTemplate where
  system : String
  human : String

/-- The system prompt built by `_setup_moderation_prompt` (the fixed
moderation policy; braces appear escaped as in the source's literal
`\x7b\x7b ... \x7d\x7d`). -/
def moderationSystemPrompt : String :=
  "\n        Eres un moderador experto para el grupo de Python CDMX en Telegram.\n" ++
  "        Tu trabajo es mantener un ambiente sano y respetuoso, pero SIN ser restrictivo con conversaciones normales de una comunidad técnica.\n\n" ++
  "        🟢 COMPLETAMENTE PERMITIDO (SIEMPRE APPROVE):\n" ++
  "        - Preguntas técnicas sobre Python, programación, desarrollo\n" ++
  "        - Discusiones sobre tecnología, frameworks, herramientas\n" ++
  "        - Compartir recursos, tutoriales, artículos técnicos\n" ++
  "        - Ayuda con código, debugging, errores\n" ++
  "        - Ofertas de trabajo relacionadas con programación\n" ++
  "        - Conversaciones casuales entre miembros de la comunidad\n" ++
  "        - Información sobre eventos, meetups, conferencias\n" ++
  "        - Presentaciones personales (\"Hola, soy nuevo\")\n" ++
  "        - Agradecimientos, felicitaciones, celebraciones\n" ++
  "        - Memes y humor relacionado con programación (incluso si mencionan otros lenguajes)\n" ++
  "        - Discusiones sobre otros lenguajes de programación (R, Java, etc.)\n" ++
  "        - Preguntas sobre carrera profesional en tech\n" ++
  "        - Compartir proyectos personales (sin spam excesivo)\n\n" ++
  "        🔴 PROHIBIDO (DELETE/WARN/BAN según gravedad):\n" ++
  "        - Insultos directos, ataques personales, lenguaje ofensivo\n" ++
  "        - Contenido sexual explícito, pornografía\n" ++
  "        - Drogas ilegales, armas, contenido violento\n" ++
  "        - Política partidista, debates políticos divisivos\n" ++
  "        - Estafas, esquemas piramidales, MLM obvios\n" ++
  "        - Spam comercial repetitivo (más de 2 veces el mismo producto)\n" ++
  "        - Links sospechosos, malware, phishing\n" ++
  "        - Contenido racista, discriminatorio, hate speech\n" ++
  "        - Promoción  de criptomonedas/trading \n" ++
  "        - Doxxing, información personal de otros sin permiso\n" ++
  "        -Javascript\n" ++
  "        -Hacking\n\n" ++
  "        ⚠️ CRITERIO PARA ACCIONES:\n" ++
  "        - APPROVE: 95% de los casos (sé muy permisivo)\n" ++
  "        - WARN: Solo para contenido borderline o primera ofensa menor\n" ++
  "        - DELETE: Para spam claro, contenido inapropiado obvio\n" ++
  "        - TIMEOUT: Para usuarios que insisten después de advertencia\n" ++
  "        - BAN: Solo para casos extremos (spam masivo, contenido muy ofensivo)\n\n" ++
  "        IMPORTANTE: \n" ++
  "        - SÉ MUY PERMISIVO con conversaciones normales\n" ++
  "        - Solo actúa contra contenido claramente problemático\n" ++
  "        - La comunidad debe sentirse libre de conversar\n" ++
  "        - Responde SOLO con un JSON válido:\n\n" ++
  "        \x7b\x7b\n" ++
  "            \"action\": \"APPROVE|WARN|DELETE|BAN|TIMEOUT\",\n" ++
  "            \"reason\": \"Explicación breve y clara en español\",\n" ++
  "            \"confidence\": 0.95\n" ++
  "        \x7d\x7d\n        "

/-- The method `_setup_moderation_prompt`: builds the prompt template
from the system policy and the human message template (pure; it cannot
fail). -/
def setupModerationPrompt : PromptTemplate :=
  { system := moderationSystemPrompt
    human := "Analiza este mensaje:\n\n\x7bmessage\x7d" }

/-- The `ContentModerator` instance state: its settings and the two
lazily-built fields, both `None` until `initialize` has run. -/
structure ContentModerator where
  settings : Settings
  llm : Option LLMConfig
  prompt_template : Option PromptTemplate

/-- The constructor `ContentModerator.__init__`: stores the settings
and sets `llm` and `prompt_template` to `None`. -/
def ContentModerator.new (s : Settings) : ContentModerator :=
  { settings := s, llm := none, prompt_template := none }

/-- The method `ContentModerator.initialize`: constructs the
`ChatGoogleGenerativeAI` handle from the settings (the external
constructor may raise, which the `connect` argument models), then builds
and stores the prompt template; the except-clause logs and re-raises, so
any failure propagates to the caller unchanged. -/
def ContentModerator.initializeEngine (st : ContentModerator)
    (connect : Except String Unit) : Except String ContentModerator :=
  match connect with
  | .error e => .error e
  | .ok _ =>
    let llm : LLMConfig :=
      { model := st.settings.ai_model
        google_api_key := st.settings.google_api_key
        temperature := st.settings.ai_temperature
        max_output_tokens := st.settings.ai_max_tokens
        max_retries := 3
        timeout := 30 }
    .ok { st with llm := some llm, prompt_template := some setupModerationPrompt }

/-- The slice `response_content[start_idx:end_idx]` step of
`_parse_moderation_response` (lines 327-333): `start_idx` is
`find(lbrace)`, `end_idx` is `rfind(rbrace) + 1`, and the explicit
ValueError fires when `start_idx == -1 or end_idx == 0`. -/
def extractCandidate (s : List Char) : Except ParseError (List Char) :=
  match pyFind lbrace s, pyRfind rbrace s with
  | none, _ => .error .noJson
  | some _, none => .error .noJson
  | some i, some j => .ok ((s.drop i).take (j + 1 - i))

/-- Field extraction from the decoded object (lines 337-346 of the
source): `.get('action', '').upper()` (AttributeError when the value is
present and not a string), `.get('reason', 'Sin razón especificada')`,
`float(.get('confidence', 0.5))` (raises when not coercible), then the
enum conversion with its APPROVE fallback for unknown labels. -/
def parseFields (fields : List (String × JsonValue)) :
    Except ParseError (ModerationAction × JsonValue × PyFloat) :=
  let actionGet : Except ParseError String :=
    match lookupLast fields "action" with
    | none => .ok ""
    | some (.jstr s) => .ok s
    | some _ => .error .actionNotString
  match actionGet with
  | .error e => .error e
  | .ok s =>
    let action_str := pyUpper s
    let reason := (lookupLast fields "reason").getD (.jstr "Sin razón especificada")
    match pyFloat ((lookupLast fields "confidence").getD (.jnum (.finite (1 / 2)))) with
    | none => .error .confidenceNotCoercible
    | some confidence =>
      let action := (moderationActionOfValue (pyLower action_str)).getD .approve
      .ok (action, reason, confidence)

/-- Lines 324-334 of the source: strip the reply, locate and slice the
candidate JSON, decode it with `json.loads`. -/
def decodeReply (response_content : String) : Except ParseError JsonValue :=
  match extractCandidate (pyStrip response_content.toList) with
  | .error e => .error e
  | .ok cand =>
    match jsonLoads cand with
    | none => .error .jsonDecode
    | some v => .ok v

/-- The try-block of `_parse_moderation_response`: decode the reply and
extract the fields; the error is the exception that reaches the
except-clause.  (The candidate always starts with a brace, so a
successful decode is necessarily an object; the non-object arm is
unreachable.) -/
def parseCore (response_content : String) :
    Except ParseError (ModerationAction × JsonValue × PyFloat) :=
  match decodeReply response_content with
  | .error e => .error e
  | .ok (.jobj fields) => parseFields fields
  | .ok _ => .error .jsonDecode

/-- The method `_parse_moderation_response`: on success the result is
built with the confidence passed through `min(max(confidence, 0.0),
1.0)` — Python's builtins, which clamp finite values into `[0, 1]` but
return NaN unchanged; any exception in the try-block is converted into
the fail-open fallback result.  `t_result` is the `loop.time()` reading
taken at result construction and `now` abstracts `datetime.now()`. -/
def parse_moderation_response (response_content original_message : String)
    (start_time t_result : ℚ) (now : ℕ) : ModerationResult :=
  match parseCore response_content with
  | .ok (action, reason, confidence) =>
    { action := action
      reason := reason
      confidence := pyMin (pyMax confidence (.finite 0)) (.finite 1)
      message_analyzed := original_message
      timestamp := now
      processing_time := t_result - start_time }
  | .error e =>
    { action := .approve
      reason := .jstr ("Error parseando respuesta: " ++ errMsg e)
      confidence := .finite 0
      message_analyzed := original_message
      timestamp := now
      processing_time := t_result - start_time }

/-- The per-call environment of one `analyze_message` call: the
`loop.time()` reading at entry, the outcome of awaiting the chain
(either the raised exception's message or `response.content`), the
`loop.time()` reading taken when the result is constructed, and
`datetime.now()`. -/
structure AnalyzeEnv where
  startTime : ℚ
  llmResponse : Except String String
  tResult : ℚ
  now : ℕ

/-- The method `ContentModerator.analyze_message`: records the start
time, raises when `llm` or `prompt_template` is unset, invokes the
chain, parses the reply; the surrounding try/except converts any
exception into the fail-open Approve result.  It is a plain function of
the instance: no instance state is read besides the two fields and none
is written. -/
def ContentModerator.analyze_message (st : ContentModerator) (message : String)
    (user_id : Option ℤ) (env : AnalyzeEnv) : ModerationResult :=
  if st.llm.isNone || st.prompt_template.isNone then
    { action := .approve
      reason := .jstr ("Error en análisis: " ++
        "Moderador no inicializado. Llama a initialize() primero.")
      confidence := .finite 0
      message_analyzed := message
      timestamp := env.now
      processing_time := env.tResult - env.startTime }
  else
    match env.llmResponse with
    | .error e =>
      { action := .approve
        reason := .jstr ("Error en análisis: " ++ e)
        confidence := .finite 0
        message_analyzed := message
        timestamp := env.now
        processing_time := env.tResult - env.startTime }
    | .ok content =>
      parse_moderation_response content message env.startTime env.tResult env.now

/-- The module-level convenience function `analyze_message` acting on
the global `moderator` instance (threaded explicitly here): it
auto-initializes when `moderator.llm` is unset — the guard tests only
`llm` — and an initialization failure propagates out of this wrapper.
Returns the result together with the possibly newly-initialized
moderator state. -/
def analyze_message (moderator : ContentModerator) (message : String)
    (user_id : Option ℤ) (connect : Except String Unit) (env : AnalyzeEnv) :
    Except String (ModerationResult × ContentModerator) :=
  if moderator.llm.isNone then
    match moderator.initializeEngine connect with
    | .error e => .error e
    | .ok m => .ok (m.analyze_message message user_id env, m)
  else
    .ok (moderator.analyze_message message user_id env, moderator)

/-- The decoded object of a raw reply when candidate extraction and JSON
decoding both succeed (the input handed to field extraction). -/
def candidateFields (response_content : String) : Option (List (String × JsonValue)) :=
  match decodeReply response_content with
  | .ok (.jobj fields) => some fields
  | _ => none

/-- The action field of a decoded reply is absent or holds a string, so
that the `.upper()` call cannot raise. -/
def actionFieldOk (fields : List (String × JsonValue)) : Prop :=
  lookupLast fields "action" = none ∨ ∃ s, lookupLast fields "action" = some (.jstr s)

/-- The failure condition of one `analyze_message` call: engine not
initialized, an exception from the provider round trip, or a parse
failure on the reply. -/
def analysisFails (st : ContentModerator) (env : AnalyzeEnv) : Prop :=
  st.llm = none ∨ st.prompt_template = none ∨
    (∃ e, env.llmResponse = .error e) ∨
    (∃ content pe, env.llmResponse = .ok content ∧ parseCore content = .error pe)

/-- The reason value of a failure result: one of the two handler
prefixes followed by a description of the failure. -/
def describesFailure (r : JsonValue) : Prop :=
  ∃ d : String,
    r = .jstr ("Error en análisis: " ++ d) ∨
    r = .jstr ("Error parseando respuesta: " ++ d)

/-- A concrete settings record (the defaults of `settings.py`) used to
instantiate the theorems at concrete inputs. -/
def sampleSettings : Settings :=
  { ai_model := "gemini-1.5-flash"
    google_api_key := "k"
    ai_temperature := 3 / 10
    ai_max_tokens := 1000
    moderation_enabled := true
    log_level := "DEBUG" }

/-- A moderator state with `llm` set but `prompt_template` still unset:
the partially-initialized shape the wrapper's `llm`-only guard does not
re-initialize. -/
def halfInitialized : ContentModerator :=
  { settings := sampleSettings
    llm := some
      { model := sampleSettings.ai_model
        google_api_key := sampleSettings.google_api_key
        temperature := sampleSettings.ai_temperature
        max_output_tokens := sampleSettings.ai_max_tokens
        max_retries := 3
        timeout := 30 }
    prompt_template := none }

/-- The moderator state produced by a successful `initialize` on the
sample settings. -/
def initializedSample : ContentModerator :=
  { settings := sampleSettings
    llm := some
      { model := sampleSettings.ai_model
        google_api_key := sampleSettings.google_api_key
        temperature := sampleSettings.ai_temperature
        max_output_tokens := sampleSettings.ai_max_tokens
        max_retries := 3
        timeout := 30 }
    prompt_template := some setupModerationPrompt }

/-- When extraction and decoding succeed, the parser is exactly field
extraction on the decoded object. -/
lemma parseCore_of_candidateFields (content : String)
    (fields : List (String × JsonValue))
    (h : candidateFields content = some fields) :
    parseCore content = parseFields fields := by
  unfold candidateFields at h
  unfold parseCore
  rcases hd : decodeReply content with e | v <;> rw [hd] at h
  · simp at h
  · cases v <;> simp_all

/-- A well-formed action field yields the string Python's `.get` call
produces (the empty string when the key is absent). -/
lemma actionFieldOk_elim (fields : List (String × JsonValue))
    (ha : actionFieldOk fields) :
    ∃ s, lookupLast fields "action" = some (.jstr s) ∨
      (lookupLast fields "action" = none ∧ s = "") := by
  rcases ha with h | ⟨s, h⟩
  · exact ⟨"", Or.inr ⟨h, rfl⟩⟩
  · exact ⟨s, Or.inl h⟩

/-- Field extraction succeeds whenever the action value is the string
`s` (or absent, with `s` the empty default) and the confidence value
coerces, and it returns exactly the source's three fields. -/
lemma parseFields_eq (fields : List (String × JsonValue)) (s : String)
    (c : PyFloat)
    (hs : lookupLast fields "action" = some (.jstr s) ∨
      (lookupLast fields "action" = none ∧ s = ""))
    (hc : pyFloat ((lookupLast fields "confidence").getD
      (.jnum (.finite (1 / 2)))) = some c) :
    parseFields fields =
      .ok ((moderationActionOfValue (pyLower (pyUpper s))).getD .approve,
        (lookupLast fields "reason").getD (.jstr "Sin razón especificada"), c) := by
  rcases hs with hs | ⟨hnone, hs⟩
  · unfold parseFields
    rw [hs, hc]
  · subst hs
    unfold parseFields
    rw [hnone, hc]

/-- Field extraction raises the float-coercion error whenever the action
value is well-formed but the present confidence value does not
coerce. -/
lemma parseFields_confidence_error (fields : List (String × JsonValue))
    (v : JsonValue) (ha : actionFieldOk fields)
    (hv : lookupLast fields "confidence" = some v) (hpf : pyFloat v = none) :
    parseFields fields = .error .confidenceNotCoercible := by
  obtain ⟨s, hs⟩ := actionFieldOk_elim fields ha
  rcases hs with hs | ⟨hnone, hs⟩
  · unfold parseFields
    rw [hs, hv]
    simp only [Option.getD_some, hpf]
  · unfold parseFields
    rw [hnone, hv]
    simp only [Option.getD_some, hpf]

/-- On finite values Python's `min(max(q, 0.0), 1.0)` agrees with the
rational clamp. -/
lemma pyClamp_finite (q : ℚ) :
    pyMin (pyMax (.finite q) (.finite 0)) (.finite 1) =
      .finite (min (max q 0) 1) := by
  rcases lt_or_le q 0 with h0 | h0
  · have h1 : pyMax (.finite q) (.finite 0) = .finite 0 := by
      simp [pyMax, pyLt, h0]
    have h2 : pyMin (PyFloat.finite 0) (.finite 1) = .finite 0 := by
      norm_num [pyMin, pyLt]
    rw [h1, h2, max_eq_right h0.le]
    norm_num
  · rcases lt_or_le (1 : ℚ) q with h1 | h1
    · have h2 : pyMax (.finite q) (.finite 0) = .finite q := by
        simp [pyMax, pyLt, not_lt.mpr h0]
      have h3 : pyMin (PyFloat.finite q) (.finite 1) = .finite 1 := by
        simp [pyMin, pyLt, h1]
      rw [h2, h3, max_eq_left h0, min_eq_right h1.le]
    · have h2 : pyMax (.finite q) (.finite 0) = .finite q := by
        simp [pyMax, pyLt, not_lt.mpr h0]
      have h3 : pyMin (PyFloat.finite q) (.finite 1) = .finite q := by
        simp [pyMin, pyLt, not_lt.mpr h1]
      rw [h2, h3, max_eq_left h0, min_eq_left h1]

/-- C1: for every input message, `analyze_message` never raises to its
caller (it is a total function into `ModerationResult`); on any failure
during the call — uninitialized engine, provider/network error or
timeout (an exception from the awaited chain), or parsing failure — it
returns a result with action `approve`, confidence `0`, a reason
carrying a description of the failure, `message_analyzed` equal to the
input message, and `processing_time` measured from the recorded start
time to the clock reading at the failure point. -/
theorem analyze_message_fail_open (st : ContentModerator) (message : String)
    (user_id : Option ℤ) (env : AnalyzeEnv) (h : analysisFails st env) :
    (st.analyze_message message user_id env).action = .approve ∧
    (st.analyze_message message user_id env).confidence = .finite 0 ∧
    (st.analyze_message message user_id env).message_analyzed = message ∧
    (st.analyze_message message user_id env).processing_time =
      env.tResult - env.startTime ∧
    describesFailure (st.analyze_message message user_id env).reason := by
  obtain ⟨se, llm, pt⟩ := st
  obtain ⟨t0, resp, t1, now⟩ := env
  rcases llm with _ | l
  · exact ⟨rfl, rfl, rfl, rfl,
      "Moderador no inicializado. Llama a initialize() primero.", Or.inl rfl⟩
  rcases pt with _ | p
  · exact ⟨rfl, rfl, rfl, rfl,
      "Moderador no inicializado. Llama a initialize() primero.", Or.inl rfl⟩
  rcases h with h | h | ⟨e, he⟩ | ⟨content, pe, hc, hp⟩
  · simp at h
  · simp at h
  · subst he
    exact ⟨rfl, rfl, rfl, rfl, e, Or.inl rfl⟩
  · subst hc
    have key : ContentModerator.analyze_message
        ⟨se, some l, some p⟩ message user_id ⟨t0, .ok content, t1, now⟩ =
        { action := .approve
          reason := .jstr ("Error parseando respuesta: " ++ errMsg pe)
          confidence := .finite 0
          message_analyzed := message
          timestamp := now
          processing_time := t1 - t0 } := by
      show parse_moderation_response content message t0 t1 now = _
      unfold parse_moderation_response
      rw [hp]
    rw [key]
    exact ⟨rfl, rfl, rfl, rfl, errMsg pe, Or.inr rfl⟩

/-- Witness for the fail-open theorem: a freshly constructed (hence
uninitialized) moderator on a concrete message and environment. -/
theorem analyze_message_fail_open_witness :
    ((ContentModerator.new sampleSettings).analyze_message "hola" (some 7)
        ⟨0, .ok "x", 1, 5⟩).action = .approve ∧
    ((ContentModerator.new sampleSettings).analyze_message "hola" (some 7)
        ⟨0, .ok "x", 1, 5⟩).confidence = .finite 0 ∧
    ((ContentModerator.new sampleSettings).analyze_message "hola" (some 7)
        ⟨0, .ok "x", 1, 5⟩).message_analyzed = "hola" ∧
    ((ContentModerator.new sampleSettings).analyze_message "hola" (some 7)
        ⟨0, .ok "x", 1, 5⟩).processing_time =
      (⟨0, .ok "x", 1, 5⟩ : AnalyzeEnv).tResult -
        (⟨0, .ok "x", 1, 5⟩ : AnalyzeEnv).startTime ∧
    describesFailure
      ((ContentModerator.new sampleSettings).analyze_message "hola" (some 7)
        ⟨0, .ok "x", 1, 5⟩).reason :=
  analyze_message_fail_open (ContentModerator.new sampleSettings) "hola" (some 7)
    ⟨0, .ok "x", 1, 5⟩ (Or.inl rfl)

/-- C9: on every call, on the success path and on both error paths, the
`processing_time` of the returned result equals the clock reading at
result construction minus the start time recorded at call entry, and is
therefore nonnegative whenever the event-loop clock is monotone. -/
theorem processing_time_measured (st : ContentModerator) (message : String)
    (user_id : Option ℤ) (env : AnalyzeEnv)
    (hmono : env.startTime ≤ env.tResult) :
    (st.analyze_message message user_id env).processing_time =
      env.tResult - env.startTime ∧
    0 ≤ (st.analyze_message message user_id env).processing_time := by
  have heq : (st.analyze_message message user_id env).processing_time =
      env.tResult - env.startTime := by
    obtain ⟨se, llm, pt⟩ := st
    obtain ⟨t0, resp, t1, now⟩ := env
    rcases llm with _ | l
    · rfl
    rcases pt with _ | p
    · rfl
    rcases resp with e | content
    · rfl
    · show (parse_moderation_response content message t0 t1 now).processing_time =
        t1 - t0
      unfold parse_moderation_response
      cases hpc : parseCore content with
      | error e => rfl
      | ok val =>
        obtain ⟨a, r, c⟩ := val
        rfl
  exact ⟨heq, heq ▸ sub_nonneg.mpr hmono⟩

/-- Witness for the processing-time theorem at a concrete moderator,
message and monotone clock pair. -/
theorem processing_time_measured_witness :
    ((ContentModerator.new sampleSettings).analyze_message "hola" none
        ⟨0, .ok "x", 1, 5⟩).processing_time =
      (⟨0, .ok "x", 1, 5⟩ : AnalyzeEnv).tResult -
        (⟨0, .ok "x", 1, 5⟩ : AnalyzeEnv).startTime ∧
    0 ≤ ((ContentModerator.new sampleSettings).analyze_message "hola" none
        ⟨0, .ok "x", 1, 5⟩).processing_time :=
  processing_time_measured (ContentModerator.new sampleSettings) "hola" none
    ⟨0, .ok "x", 1, 5⟩ zero_le_one

/-- C2: the claimed invariant fails on the program.  Python's json
accepts the `NaN` constant (and `float` coerces the string `"nan"`);
`min(max(nan, 0.0), 1.0)` returns NaN because both comparisons are
false, so a reply carrying a NaN confidence produces a result whose
confidence is NaN — not in `[0, 1]`.  The code's own field
documentation (`0.0 a 1.0`) and its clamp comment show the intended
invariant, which this input breaks. -/
theorem confidence_nan_escapes_clamp :
    (parse_moderation_response
        "\x7b\"action\": \"ban\", \"reason\": \"x\", \"confidence\": NaN\x7d"
        "m" 0 0 0).confidence = PyFloat.nan ∧
    ¬ PyFloat.inUnitInterval
      (parse_moderation_response
        "\x7b\"action\": \"ban\", \"reason\": \"x\", \"confidence\": NaN\x7d"
        "m" 0 0 0).confidence ∧
    (parse_moderation_response
        "\x7b\"action\": \"ban\", \"reason\": \"x\", \"confidence\": \"nan\"\x7d"
        "m" 0 0 0).confidence = PyFloat.nan ∧
    (parse_moderation_response
        "\x7b\"action\": \"ban\", \"reason\": \"x\", \"confidence\": NaN\x7d"
        "m" 0 0 0).action = ModerationAction.ban := by
  refine ⟨rfl, ?_, rfl, rfl⟩
  rw [show (parse_moderation_response
      "\x7b\"action\": \"ban\", \"reason\": \"x\", \"confidence\": NaN\x7d"
      "m" 0 0 0).confidence = PyFloat.nan from rfl]
  exact fun hx => hx

/-- C4: when the action value of the decoded reply is a string that does
not case-insensitively match any of the five labels — or the action key
is absent — the parse still succeeds with action `approve`, and reason
and confidence are still taken from the reply. -/
theorem unknown_action_collapses_to_approve
    (content original : String) (fields : List (String × JsonValue))
    (t0 t1 : ℚ) (now : ℕ) (c : PyFloat)
    (hf : candidateFields content = some fields)
    (ha : lookupLast fields "action" = none ∨
      ∃ s, lookupLast fields "action" = some (.jstr s) ∧
        moderationActionOfValue (pyLower (pyUpper s)) = none)
    (hc : pyFloat ((lookupLast fields "confidence").getD
      (.jnum (.finite (1 / 2)))) = some c) :
    (parse_moderation_response content original t0 t1 now).action = .approve ∧
    (parse_moderation_response content original t0 t1 now).reason =
      (lookupLast fields "reason").getD (.jstr "Sin razón especificada") ∧
    (parse_moderation_response content original t0 t1 now).confidence =
      pyMin (pyMax c (.finite 0)) (.finite 1) := by
  have hmain : ∃ s, (lookupLast fields "action" = some (.jstr s) ∨
      (lookupLast fields "action" = none ∧ s = "")) ∧
      moderationActionOfValue (pyLower (pyUpper s)) = none := by
    rcases ha with h | ⟨s, hs, hu⟩
    · exact ⟨"", Or.inr ⟨h, rfl⟩, rfl⟩
    · exact ⟨s, Or.inl hs, hu⟩
  obtain ⟨s, hs, hu⟩ := hmain
  have hpf := parseFields_eq fields s c hs hc
  rw [hu] at hpf
  unfold parse_moderation_response
  rw [parseCore_of_candidateFields content fields hf, hpf]
  exact ⟨rfl, rfl, rfl⟩

/-- Witness for the unknown-label theorem at the spec's example reply
with action `unknown_value`. -/
theorem unknown_action_collapses_to_approve_witness :
    (parse_moderation_response
        "\x7b\"action\": \"unknown_value\", \"reason\": \"x\", \"confidence\": 0.4\x7d"
        "m" 0 0 0).action = .approve ∧
    (parse_moderation_response
        "\x7b\"action\": \"unknown_value\", \"reason\": \"x\", \"confidence\": 0.4\x7d"
        "m" 0 0 0).reason = JsonValue.jstr "x" ∧
    (parse_moderation_response
        "\x7b\"action\": \"unknown_value\", \"reason\": \"x\", \"confidence\": 0.4\x7d"
        "m" 0 0 0).confidence = PyFloat.finite (2 / 5) := by
  have h := unknown_action_collapses_to_approve
    "\x7b\"action\": \"unknown_value\", \"reason\": \"x\", \"confidence\": 0.4\x7d"
    "m" _ 0 0 0 _ rfl (Or.inr ⟨"unknown_value", rfl, rfl⟩) rfl
  refine ⟨h.1, h.2.1.trans rfl, ?_⟩
  rw [h.2.2, pyClamp_finite]
  norm_num [digitsVal, show Char.toNat '4' = 52 from rfl]

/-- C3 counterexample: in the reply
`\x7b"action": "ban", "reason": "x", "confidence": "high"\x7d` the
confidence value is present but not coercible to a number; the claim
predicts a field-local default of `0.5` with action still `ban` and
reason still `"x"`, but the code fails the whole parse: the result is
the fail-open record with action `approve`, confidence `0`, and the
float-coercion error as reason. -/
theorem confidence_default_counterexample :
    (parse_moderation_response
        "\x7b\"action\": \"ban\", \"reason\": \"x\", \"confidence\": \"high\"\x7d"
        "m" 0 0 0).confidence = PyFloat.finite 0 ∧
    (parse_moderation_response
        "\x7b\"action\": \"ban\", \"reason\": \"x\", \"confidence\": \"high\"\x7d"
        "m" 0 0 0).confidence ≠ PyFloat.finite (1 / 2) ∧
    (parse_moderation_response
        "\x7b\"action\": \"ban\", \"reason\": \"x\", \"confidence\": \"high\"\x7d"
        "m" 0 0 0).action = .approve ∧
    (parse_moderation_response
        "\x7b\"action\": \"ban\", \"reason\": \"x\", \"confidence\": \"high\"\x7d"
        "m" 0 0 0).action ≠ .ban ∧
    (parse_moderation_response
        "\x7b\"action\": \"ban\", \"reason\": \"x\", \"confidence\": \"high\"\x7d"
        "m" 0 0 0).reason =
      .jstr ("Error parseando respuesta: " ++ errMsg .confidenceNotCoercible) := by
  refine ⟨rfl, ?_, rfl, ?_, rfl⟩
  · rw [show (parse_moderation_response
        "\x7b\"action\": \"ban\", \"reason\": \"x\", \"confidence\": \"high\"\x7d"
        "m" 0 0 0).confidence = PyFloat.finite 0 from rfl]
    intro hx
    exact absurd (PyFloat.finite.inj hx) (by norm_num)
  · rw [show (parse_moderation_response
        "\x7b\"action\": \"ban\", \"reason\": \"x\", \"confidence\": \"high\"\x7d"
        "m" 0 0 0).action = ModerationAction.approve from rfl]
    exact fun hx => ModerationAction.noConfusion hx

/-- C3 amended: for a successfully decoded reply with a well-formed
action field, missing fields are defaulted field-locally — the reason
placeholder when the reason key is absent, and confidence `0.5`
(clamped, hence `0.5`) when the confidence key is absent — but a present
confidence value that `float` cannot coerce fails the whole parse, and
the fail-open Approve result with confidence `0` and the coercion error
as reason is returned instead. -/
theorem field_defaults_amended (content original : String)
    (fields : List (String × JsonValue)) (t0 t1 : ℚ) (now : ℕ)
    (hf : candidateFields content = some fields)
    (ha : actionFieldOk fields) :
    (lookupLast fields "confidence" = none →
      (parse_moderation_response content original t0 t1 now).confidence =
        PyFloat.finite (1 / 2) ∧
      (parse_moderation_response content original t0 t1 now).reason =
        (lookupLast fields "reason").getD (.jstr "Sin razón especificada")) ∧
    (∀ v, lookupLast fields "confidence" = some v → pyFloat v = none →
      (parse_moderation_response content original t0 t1 now).action = .approve ∧
      (parse_moderation_response content original t0 t1 now).confidence =
        .finite 0 ∧
      (parse_moderation_response content original t0 t1 now).reason =
        .jstr ("Error parseando respuesta: " ++ errMsg .confidenceNotCoercible)) := by
  obtain ⟨s, hs⟩ := actionFieldOk_elim fields ha
  constructor
  · intro hcn
    have hc : pyFloat ((lookupLast fields "confidence").getD
        (.jnum (.finite (1 / 2)))) = some (.finite (1 / 2)) := by
      rw [hcn]
      rfl
    have hpf := parseFields_eq fields s (.finite (1 / 2)) hs hc
    unfold parse_moderation_response
    rw [parseCore_of_candidateFields content fields hf, hpf]
    constructor
    · show pyMin (pyMax (.finite (1 / 2)) (.finite 0)) (.finite 1) =
        PyFloat.finite (1 / 2)
      rw [pyClamp_finite]
      norm_num
    · rfl
  · intro v hv hnone
    have hpf := parseFields_confidence_error fields v ha hv hnone
    unfold parse_moderation_response
    rw [parseCore_of_candidateFields content fields hf, hpf]
    exact ⟨rfl, rfl, rfl⟩

/-- Witness for the amended defaulting theorem: a reply without a
confidence key gets confidence `0.5` with the reply's reason kept, and a
reply whose confidence is the non-coercible string `"high"` gets the
fail-open record. -/
theorem field_defaults_amended_witness :
    ((parse_moderation_response "\x7b\"action\": \"approve\", \"reason\": \"ok\"\x7d"
        "m" 0 0 0).confidence = PyFloat.finite (1 / 2) ∧
      (parse_moderation_response "\x7b\"action\": \"approve\", \"reason\": \"ok\"\x7d"
        "m" 0 0 0).reason = JsonValue.jstr "ok") ∧
    ((parse_moderation_response
        "\x7b\"action\": \"ban\", \"reason\": \"x\", \"confidence\": \"high\"\x7d"
        "m" 0 0 0).action = .approve ∧
      (parse_moderation_response
        "\x7b\"action\": \"ban\", \"reason\": \"x\", \"confidence\": \"high\"\x7d"
        "m" 0 0 0).confidence = .finite 0 ∧
      (parse_moderation_response
        "\x7b\"action\": \"ban\", \"reason\": \"x\", \"confidence\": \"high\"\x7d"
        "m" 0 0 0).reason =
        .jstr ("Error parseando respuesta: " ++ errMsg .confidenceNotCoercible)) := by
  constructor
  · have h := (field_defaults_amended
      "\x7b\"action\": \"approve\", \"reason\": \"ok\"\x7d" "m" _ 0 0 0 rfl
      (Or.inr ⟨"approve", rfl⟩)).1 rfl
    exact ⟨h.1, h.2.trans rfl⟩
  · exact (field_defaults_amended
      "\x7b\"action\": \"ban\", \"reason\": \"x\", \"confidence\": \"high\"\x7d" "m"
      _ 0 0 0 rfl (Or.inr ⟨"ban", rfl⟩)).2 _ rfl rfl

/-- C5 counterexample: the reply `\x7d\x7b` (a closing brace before an
opening one) contains a first opening brace (index 1) and no closing
brace after it, so the claim predicts the no-JSON-found condition; the
code instead slices the empty candidate `s[1:1]` and fails at JSON
decoding, a different failure condition (and a different `str(e)` in the
fallback reason). -/
theorem json_extraction_counterexample :
    pyFind lbrace (pyStrip "\x7d\x7b".toList) = some 1 ∧
    pyRfind rbrace (pyStrip "\x7d\x7b".toList) = some 0 ∧
    parseCore "\x7d\x7b" = .error .jsonDecode ∧
    parseCore "\x7d\x7b" ≠ .error .noJson := by
  refine ⟨rfl, rfl, rfl, ?_⟩
  rw [show parseCore "\x7d\x7b" = Except.error ParseError.jsonDecode from rfl]
  exact fun hx => ParseError.noConfusion (Except.error.inj hx)

/-- C5 amended: the candidate payload is the slice from the first
opening brace to the last closing brace inclusive; when the stripped
reply has no opening brace at all, or no closing brace at all, parsing
fails with the no-JSON-found condition and analyze returns the fail-open
Approve decision with confidence `0`; a closing brace occurring only
before the first opening brace instead yields a candidate slice that
fails at JSON decoding (with the same fail-open decision). -/
theorem json_extraction_amended :
    (∀ (s : List Char) (i j : ℕ),
        pyFind lbrace s = some i → pyRfind rbrace s = some j →
        extractCandidate s = .ok ((s.drop i).take (j + 1 - i))) ∧
    (∀ (content original : String) (t0 t1 : ℚ) (now : ℕ),
        pyFind lbrace (pyStrip content.toList) = none ∨
          pyRfind rbrace (pyStrip content.toList) = none →
        parseCore content = .error .noJson ∧
        (parse_moderation_response content original t0 t1 now).action = .approve ∧
        (parse_moderation_response content original t0 t1 now).confidence =
          .finite 0) := by
  constructor
  · intro s i j hi hj
    unfold extractCandidate
    rw [hi, hj]
  · intro content original t0 t1 now h
    have hcore : parseCore content = .error .noJson := by
      unfold parseCore decodeReply extractCandidate
      rcases h with h | h
      · rw [h]
      · rcases hi : pyFind lbrace (pyStrip content.toList) with _ | i
        · rfl
        · rw [h]
    refine ⟨hcore, ?_, ?_⟩ <;>
      · unfold parse_moderation_response
        rw [hcore]

/-- Witness for the extraction theorem: the spec's prose-wrapped example
has its embedded JSON object extracted exactly, and a reply with no
braces produces the no-JSON failure and the fail-open result. -/
theorem json_extraction_amended_witness :
    extractCandidate
        (pyStrip "Here is my answer: \x7b\"action\":\"delete\",\"reason\":\"spam\",\"confidence\":0.9\x7d Thanks!".toList) =
      .ok "\x7b\"action\":\"delete\",\"reason\":\"spam\",\"confidence\":0.9\x7d".toList ∧
    (parseCore "no json here" = .error .noJson ∧
      (parse_moderation_response "no json here" "m" 0 0 0).action = .approve ∧
      (parse_moderation_response "no json here" "m" 0 0 0).confidence =
        .finite 0) :=
  ⟨(json_extraction_amended.1
      (pyStrip "Here is my answer: \x7b\"action\":\"delete\",\"reason\":\"spam\",\"confidence\":0.9\x7d Thanks!".toList)
      _ _ rfl rfl).trans rfl,
   json_extraction_amended.2 "no json here" "m" 0 0 0 (Or.inl rfl)⟩

/-- C6 counterexample: a reply that supplies an explicit empty string as
its reason yields a result whose reason is the empty string — the
placeholder is only substituted when the key is absent, so the parser
can produce an empty reason. -/
theorem reason_empty_counterexample :
    (parse_moderation_response
        "\x7b\"action\": \"approve\", \"reason\": \"\", \"confidence\": 0.5\x7d"
        "m" 0 0 0).reason = JsonValue.jstr "" := rfl

/-- C6 amended: the placeholder reason is substituted exactly when the
decoded reply omits the reason key (an empty reason string supplied by
the reply is kept as-is, per the counterexample). -/
theorem reason_placeholder_amended (content original : String)
    (fields : List (String × JsonValue)) (t0 t1 : ℚ) (now : ℕ) (c : PyFloat)
    (hf : candidateFields content = some fields)
    (ha : actionFieldOk fields)
    (hc : pyFloat ((lookupLast fields "confidence").getD
      (.jnum (.finite (1 / 2)))) = some c)
    (hr : lookupLast fields "reason" = none) :
    (parse_moderation_response content original t0 t1 now).reason =
      .jstr "Sin razón especificada" := by
  obtain ⟨s, hs⟩ := actionFieldOk_elim fields ha
  have hpf := parseFields_eq fields s c hs hc
  unfold parse_moderation_response
  rw [parseCore_of_candidateFields content fields hf, hpf, hr]
  rfl

/-- Witness for the amended placeholder theorem: a reply with no reason
key gets the placeholder reason. -/
theorem reason_placeholder_amended_witness :
    (parse_moderation_response "\x7b\"action\": \"warn\", \"confidence\": 1\x7d"
        "m" 0 0 0).reason = JsonValue.jstr "Sin razón especificada" :=
  reason_placeholder_amended "\x7b\"action\": \"warn\", \"confidence\": 1\x7d"
    "m" _ 0 0 0 _ rfl (Or.inr ⟨"warn", rfl⟩) rfl rfl

/-- C8: a failure while establishing the provider connection during
`initialize` propagates to the caller unchanged (the except-clause
re-raises), and the engine never reports success without both the
connection handle and the prompt template set — it cannot silently
proceed uninitialized. -/
theorem initialize_propagates_failure :
    (∀ (st : ContentModerator) (e : String),
        st.initializeEngine (Except.error e) = Except.error e) ∧
    (∀ (st : ContentModerator) (connect : Except String Unit)
        (r : ContentModerator),
        st.initializeEngine connect = Except.ok r →
        r.llm.isSome ∧ r.prompt_template.isSome) := by
  constructor
  · intro st e
    rfl
  · intro st connect r h
    rcases connect with e | u
    · exact absurd h (by simp [ContentModerator.initializeEngine])
    · unfold ContentModerator.initializeEngine at h
      simp only [Except.ok.injEq] at h
      subst h
      exact ⟨rfl, rfl⟩

/-- Witness for the initialization theorem: a concrete bad-credentials
failure propagates, and a concrete successful initialize yields a fully
set state. -/
theorem initialize_propagates_failure_witness :
    (ContentModerator.new sampleSettings).initializeEngine
        (Except.error "bad credentials") = Except.error "bad credentials" ∧
    (initializedSample.llm.isSome ∧ initializedSample.prompt_template.isSome) :=
  ⟨initialize_propagates_failure.1 (ContentModerator.new sampleSettings)
      "bad credentials",
   initialize_propagates_failure.2 (ContentModerator.new sampleSettings)
      (Except.ok ()) initializedSample rfl⟩

/-- C10: calling the method `ContentModerator.analyze_message` directly
on an instance whose `llm` or `prompt_template` is still unset neither
raises nor initializes anything: it returns the fail-open result whose
reason carries the not-initialized message, with action `approve`,
confidence `0` and the input message echoed.  Auto-initialization lives
only in the module-level wrapper, and the wrapper's guard tests only
`llm`: a state with `llm` set is passed through unchanged — even when
its `prompt_template` is still unset. -/
theorem direct_analyze_uninitialized :
    (∀ (st : ContentModerator) (message : String) (user_id : Option ℤ)
        (env : AnalyzeEnv),
        st.llm = none ∨ st.prompt_template = none →
        st.analyze_message message user_id env =
          { action := .approve
            reason := .jstr ("Error en análisis: " ++
              "Moderador no inicializado. Llama a initialize() primero.")
            confidence := .finite 0
            message_analyzed := message
            timestamp := env.now
            processing_time := env.tResult - env.startTime }) ∧
    (∀ (st : ContentModerator) (message : String) (user_id : Option ℤ)
        (connect : Except String Unit) (env : AnalyzeEnv) (l : LLMConfig),
        st.llm = some l →
        analyze_message st message user_id connect env =
          Except.ok (st.analyze_message message user_id env, st)) := by
  constructor
  · intro st message user_id env h
    obtain ⟨se, llm, pt⟩ := st
    obtain ⟨t0, resp, t1, now⟩ := env
    rcases llm with _ | l
    · rfl
    rcases pt with _ | p
    · rfl
    rcases h with h | h <;> simp at h
  · intro st message user_id connect env l hl
    obtain ⟨se, llm, pt⟩ := st
    rcases llm with _ | l2
    · simp at hl
    · rfl

/-- Witness for the direct-call theorem at the half-initialized state:
the method itself falls back to the not-initialized result, and the
wrapper does not re-initialize because `llm` is set. -/
theorem direct_analyze_uninitialized_witness :
    halfInitialized.analyze_message "hola" none ⟨0, .ok "x", 1, 5⟩ =
      { action := .approve
        reason := .jstr ("Error en análisis: " ++
          "Moderador no inicializado. Llama a initialize() primero.")
        confidence := .finite 0
        message_analyzed := "hola"
        timestamp := 5
        processing_time := 1 - 0 } ∧
    analyze_message halfInitialized "hola" none (Except.ok ()) ⟨0, .ok "x", 1, 5⟩ =
      Except.ok (halfInitialized.analyze_message "hola" none ⟨0, .ok "x", 1, 5⟩,
        halfInitialized) :=
  ⟨direct_analyze_uninitialized.1 halfInitialized "hola" none ⟨0, .ok "x", 1, 5⟩
      (Or.inr rfl),
   direct_analyze_uninitialized.2 halfInitialized "hola" none (Except.ok ())
      ⟨0, .ok "x", 1, 5⟩
      { model := sampleSettings.ai_model
        google_api_key := sampleSettings.google_api_key
        temperature := sampleSettings.ai_temperature
        max_output_tokens := sampleSettings.ai_max_tokens
        max_retries := 3
        timeout := 30 } rfl⟩
